import Mathlib

/-!
Verification of the account-processing webhook pipeline (balances-app).

This file gives a shallow embedding of the parts of the repository that the
claims concern:

* `src/balances-app/src/lib/v2-validation.ts` — the zod schema
  `v2WebhookRequestSchema` for structured webhook payloads, embedded as the
  executable checker `parseV2WebhookPayload` over a typed JSON payload.
* `src/lib/v2-database.ts` (src/unnamed/part_006) — the `V2DatabaseService`
  operations `findOrCreateSource`, `getUsersForSource` and
  `createV2Transaction`, embedded over an explicit store state.  Each service
  method performs several sequential awaited database calls; to capture the
  interleaving with concurrent writers, a method that performs two store
  accesses takes the store observed by each access as a separate argument
  (sequential, interference-free execution instantiates both with the same
  store).
* `src/app/api/v2/webhook/transaction/route.ts` — the POST handler from the
  point after envelope/schema validation (source-type inference, source
  resolution, subscriber check, idempotent insert, outcome mapping).
* the free-text SMS grammar parser (`parseBancolombiaSMS`), whose source file
  `src/lib/sms-parser.ts` is not part of the provided sources; it is modelled
  from the specification (§4.1) and the template regex recorded in the
  repository's architecture documents.

JS `number` amounts are embedded as `ℚ` (all representable amounts are
finite; ordering on the three boundary values of interest is exact), ISO-8601
instants as epoch seconds (`Int`), and the runtime's local-timezone offset as
an explicit `Int` parameter (seconds east of UTC).
-/

namespace BalancesApp

/-! ## Character-class helpers shared by the regex checks -/

/-- JS `String.prototype.includes(c)` for a single-character needle. -/
def strHasChar (s : String) (c : Char) : Bool :=
  s.data.any (fun d => d == c)

/-- JS `String.prototype.startsWith(c)` for a single-character needle. -/
def strHeadIs (s : String) (c : Char) : Bool :=
  match s.data with
  | [] => false
  | d :: _ => d == c

/-- Character class `[a-z0-9_-]` of the `source` regex. -/
def isLowerAlnumDash (c : Char) : Bool :=
  c.isLower || c.isDigit || c == '_' || c == '-'

/-- Character class `[a-zA-Z0-9_-]` of the `webhookId` regex. -/
def isAlnumDash (c : Char) : Bool :=
  c.isLower || c.isUpper || c.isDigit || c == '_' || c == '-'

/-- Character class `[^\s@]` used by the email regex. -/
def isNonSpaceAt (c : Char) : Bool :=
  !(c.isWhitespace || c == '@')

/-- Email shape regex `/^[^\s@]+@[^\s@]+\.[^\s@]+$/` from `v2-validation.ts`.
Because `[^\s@]` excludes `@`, a match exists iff the string has exactly one
`@`, both sides are nonempty and free of whitespace, and the part after the
`@` contains a `.` that is neither its first nor its last character. -/
def emailShapeOk (s : String) : Bool :=
  match s.data.splitOn '@' with
  | [pre, post] =>
      !pre.isEmpty && pre.all isNonSpaceAt &&
      !post.isEmpty && post.all isNonSpaceAt &&
      ((post.drop 1).dropLast.contains '.')
  | _ => false

/-- Phone shape regex `/^\+\d{10,15}$/` from `v2-validation.ts`. -/
def phoneShapeOk (s : String) : Bool :=
  match s.data with
  | '+' :: rest => rest.all Char.isDigit && 10 ≤ rest.length && rest.length ≤ 15
  | _ => false

/-- The `.refine` body of `sourceValueSchema`: email shape when the value
contains `@`, phone shape when it starts with `+`, otherwise any nonempty
string passes. -/
def sourceValueFormatOk (s : String) : Bool :=
  if strHasChar s '@' then emailShapeOk s
  else if strHeadIs s '+' then phoneShapeOk s
  else s.length > 0

/-- Tail of zod's default `.datetime()` regex after the seconds field:
an optional fractional part `(\.\d+)?` followed by the literal `Z`. -/
def fracThenZ : List Char → Bool
  | ['Z'] => true
  | '.' :: rest =>
      rest.getLast? == some 'Z' && !rest.dropLast.isEmpty &&
      rest.dropLast.all Char.isDigit
  | _ => false

/-- zod `z.string().datetime()` default regex
`/^\d{4}-\d{2}-\d{2}T\d{2}:\d{2}:\d{2}(\.\d+)?Z$/` (UTC-only, no offset,
no calendar-range check). -/
def isoDatetimeOk (s : String) : Bool :=
  match s.data with
  | y1 :: y2 :: y3 :: y4 :: '-' :: m1 :: m2 :: '-' :: d1 :: d2 :: 'T' ::
    h1 :: h2 :: ':' :: i1 :: i2 :: ':' :: s1 :: s2 :: rest =>
      [y1, y2, y3, y4, m1, m2, d1, d2, h1, h2, i1, i2, s1, s2].all Char.isDigit
        && fracThenZ rest
  | _ => false

/-! ## Structured payload validator (`v2WebhookRequestSchema`) -/

/-- The `metadata` object of the schema: three optional string fields plus a
catchall that passes any additional fields through untouched (the catchall is
not itself validated, so only the typed fields are modelled). -/
structure V2Metadata where
  accountNumber : Option String
  senderName : Option String
  reference : Option String
deriving DecidableEq, Repr

/-- A decoded JSON body for the structured webhook, at the field types the
schema declares (field-level type errors are outside the claims). -/
structure V2Raw where
  source : String
  timestamp : String
  sourceFrom : String
  sourceTo : String
  event : String
  message : String
  amount : ℚ
  currency : Option String
  webhookId : String
  metadata : Option V2Metadata
deriving DecidableEq, Repr

/-- One entry of `formatValidationErrors`: a (field, message, code) triple. -/
structure FieldError where
  field : String
  message : String
  code : String
deriving DecidableEq, Repr

/-- Issues of the `source` field: `.min(1).max(50).regex(/^[a-z0-9_-]+$/)`
(zod string checks all run and accumulate). -/
def sourceIssues (s : String) : List FieldError :=
  (if s.length < 1 then
    [⟨"source", "Source is required", "too_small"⟩] else []) ++
  (if s.length > 50 then
    [⟨"source", "Source name too long", "too_big"⟩] else []) ++
  (if !(s.length ≥ 1 && s.data.all isLowerAlnumDash) then
    [⟨"source", "Source must be lowercase alphanumeric with dashes/underscores",
      "invalid_string"⟩] else [])

/-- Issues of the `timestamp` field: `.datetime(...)`. -/
def timestampIssues (s : String) : List FieldError :=
  if isoDatetimeOk s then []
  else [⟨"timestamp", "Invalid ISO 8601 timestamp format", "invalid_string"⟩]

/-- Issues of a `sourceValueSchema` field (`sourceFrom` / `sourceTo`):
`.min(1).max(255)` and then `.refine(...)`; the refinement (a `ZodEffects`
wrapper) only runs when the inner string checks pass. -/
def sourceValueIssues (field : String) (s : String) : List FieldError :=
  let base :=
    (if s.length < 1 then
      [⟨field, "Source value cannot be empty", "too_small"⟩] else []) ++
    (if s.length > 255 then
      [⟨field, "Source value too long", "too_big"⟩] else [])
  if !base.isEmpty then base
  else if sourceValueFormatOk s then []
  else [⟨field, "Invalid source value format", "custom"⟩]

/-- Issues of the `event` field: `z.enum(['deposit','withdrawal','transfer'])`. -/
def eventIssues (e : String) : List FieldError :=
  if e == "deposit" || e == "withdrawal" || e == "transfer" then []
  else [⟨"event", "Invalid enum value", "invalid_enum_value"⟩]

/-- Issues of the `message` field: `.min(1).max(2000)`. -/
def messageIssues (m : String) : List FieldError :=
  (if m.length < 1 then
    [⟨"message", "Message cannot be empty", "too_small"⟩] else []) ++
  (if m.length > 2000 then
    [⟨"message", "Message too long", "too_big"⟩] else [])

/-- Issues of the `amount` field:
`z.number().positive(...).max(999999999999, ...).refine(Number.isFinite)`.
In the `ℚ` embedding every value is finite, so the refinement never fires. -/
def amountIssues (a : ℚ) : List FieldError :=
  (if a ≤ 0 then
    [⟨"amount", "Amount must be positive", "too_small"⟩] else []) ++
  (if a > 999999999999 then
    [⟨"amount", "Amount too large", "too_big"⟩] else [])

/-- Character class `[A-Z]` for the currency regex `/^[A-Z]{3}$/`. -/
def isUpperAscii (c : Char) : Bool := c.isUpper

/-- Issues of the `currency` field.  The schema is
`z.string().length(3).regex(/^[A-Z]{3}$/).default('COP').optional()`, i.e.
`ZodOptional (ZodDefault (ZodString ...))`.  `ZodOptional` short-circuits an
absent (`undefined`) value to a successful `undefined` before the inner
`ZodDefault` can substitute `'COP'`, so an absent currency produces no issues
and stays absent; a present value is checked by the inner string schema. -/
def currencyIssues (c : Option String) : List FieldError :=
  match c with
  | none => []
  | some v =>
      (if v.length ≠ 3 then
        [⟨"currency", "Currency must be 3 characters", "invalid_string"⟩] else []) ++
      (if !(v.length = 3 && v.data.all isUpperAscii) then
        [⟨"currency", "Currency must be uppercase ISO code", "invalid_string"⟩] else [])

/-- Issues of the `webhookId` field: `.min(1).max(255).regex(/^[a-zA-Z0-9_-]+$/)`. -/
def webhookIdIssues (w : String) : List FieldError :=
  (if w.length < 1 then
    [⟨"webhookId", "Webhook ID is required", "too_small"⟩] else []) ++
  (if w.length > 255 then
    [⟨"webhookId", "Webhook ID too long", "too_big"⟩] else []) ++
  (if !(w.length ≥ 1 && w.data.all isAlnumDash) then
    [⟨"webhookId", "Webhook ID contains invalid characters", "invalid_string"⟩] else [])

/-- All issues of `v2WebhookRequestSchema.safeParse`, in shape-key order.
The optional `metadata` object validates its three optional string fields,
which in the typed embedding always pass, and its catchall accepts anything. -/
def v2RequestIssues (r : V2Raw) : List FieldError :=
  sourceIssues r.source ++
  timestampIssues r.timestamp ++
  sourceValueIssues "sourceFrom" r.sourceFrom ++
  sourceValueIssues "sourceTo" r.sourceTo ++
  eventIssues r.event ++
  messageIssues r.message ++
  amountIssues r.amount ++
  currencyIssues r.currency ++
  webhookIdIssues r.webhookId

/-- `parseV2WebhookPayload` (`v2WebhookRequestSchema.safeParse`): on success
the parsed data is the input unchanged — in particular an absent `currency`
remains absent, because `ZodOptional` short-circuits before `ZodDefault`. -/
def parseV2WebhookPayload (r : V2Raw) : Except (List FieldError) V2Raw :=
  match v2RequestIssues r with
  | [] => Except.ok r
  | issues => Except.error issues

/-! ## Store model (Supabase tables of migration 004) -/

/-- `sourceType` enum: `'email' | 'phone' | 'webhook'`. -/
inductive SourceType
  | email
  | phone
  | webhook
deriving DecidableEq, Repr

/-- A row of the `sources` table.  `UNIQUE(source_type, source_value)`;
the UUID primary key is modelled by an opaque `Nat`. -/
structure SourceRow where
  id : Nat
  sourceType : SourceType
  sourceValue : String
deriving DecidableEq, Repr

/-- A row of the `user_sources` table (`userId`, `sourceId`, `isActive`). -/
structure UserSourceRow where
  userId : String
  sourceId : Nat
  isActive : Bool
deriving DecidableEq, Repr

/-- The column values `createV2Transaction` inserts into `v2_transactions`
(the database generates the row id).  `transactionDate` is the UTC day number
denoted by the `toISOString` date component; `transactionTime` is the local
seconds-of-day denoted by the `toTimeString` time component. -/
structure TxData where
  sourceId : Nat
  amount : ℚ
  currency : String
  senderName : Option String
  accountNumber : Option String
  transactionDate : Int
  transactionTime : Int
  rawMessage : String
  webhookId : String
  event : String
  status : String
deriving DecidableEq, Repr

/-- A persisted row of the `v2_transactions` table (`webhook_id` is UNIQUE). -/
structure TxRow extends TxData where
  id : Nat
deriving DecidableEq, Repr

/-- The relevant slice of the database: the three tables plus a fresh-id
counter standing in for UUID generation. -/
structure Store where
  sources : List SourceRow
  userSources : List UserSourceRow
  txs : List TxRow
  nextId : Nat
deriving DecidableEq, Repr

/-- A PostgREST/Postgres error as surfaced by the supabase client. -/
structure DbError where
  code : String
  message : String
deriving DecidableEq, Repr

/-- The unique-constraint violation (SQLSTATE 23505) for a named constraint. -/
def pgUniqueViolation (constraintName : String) : DbError :=
  ⟨"23505", "duplicate key value violates unique constraint " ++ constraintName⟩

/-- `select * from sources where source_type = ty and source_value = v` with
`.single()` (at most one row exists by the unique constraint). -/
def findSourceRow (st : Store) (ty : SourceType) (v : String) : Option SourceRow :=
  st.sources.find? (fun r => r.sourceType == ty && r.sourceValue == v)

/-- `insert into sources (source_type, source_value)`: the storage layer
enforces `UNIQUE(source_type, source_value)` and reports SQLSTATE 23505 on a
conflicting row, leaving the table unchanged. -/
def insertSourceRow (st : Store) (ty : SourceType) (v : String) :
    Except DbError SourceRow × Store :=
  if (findSourceRow st ty v).isSome then
    (Except.error (pgUniqueViolation "sources_source_type_source_value_key"), st)
  else
    let row : SourceRow := ⟨st.nextId, ty, v⟩
    (Except.ok row,
     { st with sources := st.sources ++ [row], nextId := st.nextId + 1 })

/-- `select id, webhook_id from v2_transactions where webhook_id = w` with
`.single()`. -/
def findTxRow (st : Store) (w : String) : Option TxRow :=
  st.txs.find? (fun r => r.webhookId == w)

/-- `insert into v2_transactions ...`: the storage layer enforces
`webhook_id UNIQUE` and reports SQLSTATE 23505 on a conflict, leaving the
table unchanged; otherwise the database assigns the id and persists. -/
def insertTxRow (st : Store) (d : TxData) : Except DbError TxRow × Store :=
  if (findTxRow st d.webhookId).isSome then
    (Except.error (pgUniqueViolation "v2_transactions_webhook_id_key"), st)
  else
    let row : TxRow := { d with id := st.nextId }
    (Except.ok row, { st with txs := st.txs ++ [row], nextId := st.nextId + 1 })

/-! ## `V2DatabaseService` operations (src/lib/v2-database.ts) -/

/-- `V2DatabaseService.findOrCreateSource`: look the pair up; if the lookup
reports PGRST116 (no row), insert.  The lookup-await and the insert-await each
observe a store state (`stFind`, `stIns`); a sequential run has
`stIns = stFind`, while a concurrent first-sighting that lands between the two
calls is represented by an `stIns` that already holds the pair.  Any insert
error — the unique-constraint conflict included — is returned as
`Failed to create source: ...`; there is no retry of the lookup. -/
def findOrCreateSource (stFind stIns : Store) (ty : SourceType) (v : String) :
    Except String SourceRow × Store :=
  match findSourceRow stFind ty v with
  | some row => (Except.ok row, stIns)
  | none =>
      match insertSourceRow stIns ty v with
      | (Except.ok row, st2) => (Except.ok row, st2)
      | (Except.error e, st2) =>
          (Except.error ("Failed to create source: " ++ e.message), st2)

/-- `V2DatabaseService.getUsersForSource`: user ids of the active
`user_sources` rows of a source. -/
def getUsersForSource (st : Store) (sourceId : Nat) : List String :=
  (st.userSources.filter (fun u => u.sourceId == sourceId && u.isActive)).map
    (fun u => u.userId)

/-- JS `x || 'COP'`: an absent or empty-string currency falls back to
`"COP"`. -/
def jsOrCOP (c : Option String) : String :=
  match c with
  | some s => if s = "" then "COP" else s
  | none => "COP"

/-- JS `x || null` applied to an optional metadata string: an absent or
empty-string value becomes null. -/
def jsOrNull (c : Option String) : Option String :=
  match c with
  | some s => if s = "" then none else some s
  | none => none

/-- `new Date(t).toISOString().split('T')[0]`: the UTC day number of the
instant (the date string is a bijective image of this number). -/
def txDateUTC (t : Int) : Int := t / 86400

/-- `new Date(t).toTimeString().split(' ')[0]`: the seconds-of-day of the
instant in the runtime's local timezone, `tz` seconds east of UTC (the
`HH:MM:SS` string is a bijective image of this number). -/
def txTimeLocal (tz t : Int) : Int := (t + tz) % 86400

/-- The validated payload as the pipeline consumes it: the ISO timestamp is
carried as the epoch-second instant it denotes (`new Date(timestamp)`), and
the two metadata strings the repository reads are lifted out. -/
structure V2Data where
  timestampSec : Int
  sourceTo : String
  event : String
  message : String
  amount : ℚ
  currency : Option String
  webhookId : String
  senderName : Option String
  accountNumber : Option String
deriving DecidableEq, Repr

/-- `V2DatabaseService.createV2Transaction`: a pre-check select on
`webhook_id` (an existing row yields the error `Duplicate webhook ID`
without touching the table), then the date/time split and the insert.  The
check-await and insert-await observe `stCheck` and `stIns` respectively
(sequential run: equal); `tz` is the runtime's local UTC offset in seconds.
An insert error — the unique-constraint conflict included — is returned as
`Failed to insert transaction: ...`. -/
def createV2Transaction (stCheck stIns : Store) (tz : Int) (sourceId : Nat)
    (p : V2Data) : Except String TxRow × Store :=
  match findTxRow stCheck p.webhookId with
  | some _ => (Except.error "Duplicate webhook ID", stIns)
  | none =>
      let d : TxData :=
        { sourceId := sourceId
          amount := p.amount
          currency := jsOrCOP p.currency
          senderName := jsOrNull p.senderName
          accountNumber := jsOrNull p.accountNumber
          transactionDate := txDateUTC p.timestampSec
          transactionTime := txTimeLocal tz p.timestampSec
          rawMessage := p.message
          webhookId := p.webhookId
          event := p.event
          status := "processed" }
      match insertTxRow stIns d with
      | (Except.ok row, st2) => (Except.ok row, st2)
      | (Except.error e, st2) =>
          (Except.error ("Failed to insert transaction: " ++ e.message), st2)

/-! ## POST handler of /api/v2/webhook/transaction (post-validation part) -/

/-- Does `pat` lead the list (match at its head)? -/
def leadsList : List Char → List Char → Bool
  | [], _ => true
  | _ :: _, [] => false
  | a :: as, b :: bs => a == b && leadsList as bs

/-- Does `pat` occur anywhere in the list? -/
def occursIn (pat : List Char) : List Char → Bool
  | [] => pat.isEmpty
  | c :: rest => leadsList pat (c :: rest) || occursIn pat rest

/-- JS `String.prototype.includes(sub)`. -/
def strIncludes (s sub : String) : Bool :=
  occursIn sub.data s.data

/-- Source-type inference of the route handler: `includes('@')` beats
`startsWith('+')`, and everything else is a webhook identifier. -/
def inferSourceType (sourceTo : String) : SourceType :=
  if strHasChar sourceTo '@' then SourceType.email
  else if strHeadIs sourceTo '+' then SourceType.phone
  else SourceType.webhook

/-- Caller-visible `status` field of `V2WebhookResponse`. -/
inductive RespStatus
  | processed
  | error
  | duplicate
deriving DecidableEq, Repr

/-- `V2WebhookResponse` together with the HTTP status it is sent with. -/
structure V2Response where
  status : RespStatus
  httpStatus : Nat
  transactionId : Option Nat
  webhookId : String
  sourceId : Option Nat
  errorMsg : Option String
deriving DecidableEq, Repr

/-- The POST handler of `src/app/api/v2/webhook/transaction/route.ts` from
the point where the payload has passed envelope and schema validation:
source-type inference, `findOrCreateSource`, the subscriber check,
`createV2Transaction`, and the mapping of each outcome to a response.  Both
awaited service calls run against the sequentially threaded store (no
interference within one request), so the store arguments of each service
call coincide; `getUsersForSource` cannot fail in the store model, so the
`usersError` 500 branch is unreachable and not represented. -/
def postV2 (tz : Int) (st : Store) (p : V2Data) : V2Response × Store :=
  match findOrCreateSource st st (inferSourceType p.sourceTo) p.sourceTo with
  | (Except.error _, st1) =>
      ({ status := RespStatus.error, httpStatus := 500, transactionId := none,
         webhookId := p.webhookId, sourceId := none,
         errorMsg := some "Failed to process source" }, st1)
  | (Except.ok src, st1) =>
      let userIds := getUsersForSource st1 src.id
      if userIds.isEmpty then
        ({ status := RespStatus.error, httpStatus := 404, transactionId := none,
           webhookId := p.webhookId, sourceId := some src.id,
           errorMsg := some "No users configured for this source" }, st1)
      else
        match createV2Transaction st1 st1 tz src.id p with
        | (Except.error msg, st2) =>
            if strIncludes msg "Duplicate webhook ID" then
              ({ status := RespStatus.duplicate, httpStatus := 200,
                 transactionId := none, webhookId := p.webhookId,
                 sourceId := some src.id, errorMsg := none }, st2)
            else
              ({ status := RespStatus.error, httpStatus := 500,
                 transactionId := none, webhookId := p.webhookId,
                 sourceId := none,
                 errorMsg := some "Failed to store transaction" }, st2)
        | (Except.ok tx, st2) =>
            ({ status := RespStatus.processed, httpStatus := 200,
               transactionId := some tx.id, webhookId := p.webhookId,
               sourceId := some src.id, errorMsg := none }, st2)

/-- Reading a stored (date, time) pair back as an instant under the timezone
policy `q` (seconds east of UTC): the date contributes its day number, the
time its seconds-of-day, and `q` is subtracted to return to UTC. -/
def recombineAt (q d tod : Int) : Int :=
  d * 86400 + tod - q

/-! ## Free-text grammar parser (src/lib/sms-parser.ts)

Modelled from the spec: the file `src/lib/sms-parser.ts` itself is not among
the provided sources (only its callers, mocks and documentation are).
`parseBancolombiaSMS` is modelled from specification §4.1 together with the
template regex recorded in the repository's architecture documents:
`Bancolombia:\s*Recibiste una transferencia por \$([0-9,]+) de ([A-Z\s]+) en
tu cuenta \*\*(\d+), el (\d{2}\/\d{2}\/\d{4}) a las (\d{2}:\d{2})` — on a
match the amount has its comma separators stripped, the sender name is
trimmed, the date is built from the DD/MM/YYYY components with impossible
calendar dates rejected as a parse failure, and the time is kept in 24-hour
HH:MM form; on no match or malformed fields a failure result with a
human-readable `errorReason` is returned. -/

/-- Strip `lit` from the head of the list, returning the remainder. -/
def stripLead : List Char → List Char → Option (List Char)
  | [], l => some l
  | _ :: _, [] => none
  | a :: as, b :: bs => if a == b then stripLead as bs else none

/-- Split at the first occurrence of the separator `sep`, returning the part
before it and the part after it. -/
def splitAtSep (sep : List Char) : List Char → Option (List Char × List Char)
  | [] => if sep.isEmpty then some ([], []) else none
  | c :: rest =>
      match stripLead sep (c :: rest) with
      | some after => some ([], after)
      | none =>
          match splitAtSep sep rest with
          | some (pre, post) => some (c :: pre, post)
          | none => none

/-- Numeric value of a digit list (most significant first). -/
def digitsVal (l : List Char) : Nat :=
  l.foldl (fun n c => n * 10 + (c.toNat - 48)) 0

/-- Trim leading and trailing whitespace from a character list. -/
def trimChars (l : List Char) : List Char :=
  ((l.dropWhile Char.isWhitespace).reverse.dropWhile Char.isWhitespace).reverse

/-- The syntactic capture groups of the bank-transfer template. -/
structure SmsCaps where
  amount : Nat
  senderName : String
  account : String
  day : Nat
  month : Nat
  year : Nat
  hour : Nat
  minute : Nat
  timeStr : String
deriving DecidableEq, Repr

/-- Modelled from the spec: the purely syntactic template match (the regex of
§4.1 / the architecture docs), with the capture groups decoded but no
calendar validation.  The amount group is `[0-9,]+` with at least one digit,
the sender group `[A-Z\s]+`, the account group `\d+`, and the date and time
groups are fixed-width digit patterns. -/
def templateMatch (m : String) : Option SmsCaps :=
  match stripLead "Bancolombia: Recibiste una transferencia por $".data m.data with
  | none => none
  | some r1 =>
      match splitAtSep " de ".data r1 with
      | none => none
      | some (amtCs, r2) =>
          if amtCs.isEmpty || !amtCs.all (fun c => c.isDigit || c == ',') then none
          else
            match splitAtSep " en tu cuenta **".data r2 with
            | none => none
            | some (nameCs, r3) =>
                if nameCs.isEmpty ||
                   !nameCs.all (fun c => c.isUpper || c.isWhitespace) then none
                else
                  match splitAtSep ", el ".data r3 with
                  | none => none
                  | some (acctCs, r4) =>
                      if acctCs.isEmpty || !acctCs.all Char.isDigit then none
                      else
                        match r4 with
                        | d1 :: d2 :: '/' :: m1 :: m2 :: '/' ::
                          y1 :: y2 :: y3 :: y4 :: rest =>
                            match stripLead " a las ".data rest with
                            | some [h1, h2, ':', n1, n2] =>
                                if [d1, d2, m1, m2, y1, y2, y3, y4,
                                    h1, h2, n1, n2].all Char.isDigit then
                                  let amtDigits := amtCs.filter Char.isDigit
                                  if amtDigits.isEmpty then none
                                  else
                                    some
                                      { amount := digitsVal amtDigits
                                        senderName := String.mk (trimChars nameCs)
                                        account := String.mk acctCs
                                        day := digitsVal [d1, d2]
                                        month := digitsVal [m1, m2]
                                        year := digitsVal [y1, y2, y3, y4]
                                        hour := digitsVal [h1, h2]
                                        minute := digitsVal [n1, n2]
                                        timeStr := String.mk [h1, h2, ':', n1, n2] }
                                else none
                            | _ => none
                        | _ => none

/-- Gregorian leap-year rule. -/
def isLeapYear (y : Nat) : Bool :=
  (y % 4 == 0 && y % 100 != 0) || (y % 400 == 0)

/-- Number of days of month `m` of year `y`. -/
def daysInMonth (y m : Nat) : Nat :=
  if m == 2 then (if isLeapYear y then 29 else 28)
  else if m == 4 || m == 6 || m == 9 || m == 11 then 30
  else 31

/-- Is `d/m/y` a possible calendar date? -/
def validDate (d m y : Nat) : Bool :=
  1 ≤ m && m ≤ 12 && 1 ≤ d && d ≤ daysInMonth y m

/-- Is `h:n` a possible 24-hour time of day? -/
def validTime (h n : Nat) : Bool :=
  h < 24 && n < 60

/-- The `ParsedMessage` result shape of the parser (src/lib/types.ts):
extracted fields plus a `success` flag and an optional `errorReason`. -/
structure ParsedMessage where
  amount : Nat
  senderName : String
  account : String
  day : Nat
  month : Nat
  year : Nat
  time : String
  success : Bool
  errorReason : Option String
deriving DecidableEq, Repr

/-- A failure result: no partial fields, a human-readable reason. -/
def smsFailure (reason : String) : ParsedMessage :=
  ⟨0, "", "", 0, 0, 0, "", false, some reason⟩

/-- Modelled from the spec: `parseBancolombiaSMS` — match the template, then
reject impossible calendar dates (and impossible times) as parse failures
rather than silently wrapped dates. -/
def parseBancolombiaSMS (m : String) : ParsedMessage :=
  match templateMatch m with
  | none => smsFailure "Message does not match Bancolombia transfer format"
  | some caps =>
      if !validDate caps.day caps.month caps.year then
        smsFailure "Invalid date in message"
      else if !validTime caps.hour caps.minute then
        smsFailure "Invalid time in message"
      else
        ⟨caps.amount, caps.senderName, caps.account, caps.day, caps.month,
         caps.year, caps.timeStr, true, none⟩

/-! ## Helper lemmas -/

theorem find?_append_of_none {α : Type _} (p : α → Bool) (l1 l2 : List α)
    (h : l1.find? p = none) : (l1 ++ l2).find? p = l2.find? p := by
  induction l1 with
  | nil => simp
  | cons a as ih =>
      cases hpa : p a with
      | true => rw [List.find?_cons_of_pos _ hpa] at h; exact absurd h (by simp)
      | false =>
          rw [List.find?_cons_of_neg _ (by simp [hpa])] at h
          rw [List.cons_append, List.find?_cons_of_neg _ (by simp [hpa])]
          exact ih h

theorem filter_eq_nil_of_find?_none {α : Type _} (p : α → Bool) (l : List α)
    (h : l.find? p = none) : l.filter p = [] := by
  induction l with
  | nil => simp
  | cons a as ih =>
      cases hpa : p a with
      | true => rw [List.find?_cons_of_pos _ hpa] at h; exact absurd h (by simp)
      | false =>
          rw [List.find?_cons_of_neg _ (by simp [hpa])] at h
          simp [List.filter, hpa, ih h]

theorem findOrCreateSource_txs (st1 st2 : Store) (ty : SourceType) (v : String) :
    ((findOrCreateSource st1 st2 ty v).2).txs = st2.txs := by
  unfold findOrCreateSource
  cases findSourceRow st1 ty v with
  | some row => rfl
  | none =>
      unfold insertSourceRow
      cases hif : (findSourceRow st2 ty v).isSome <;> simp [hif]

theorem findOrCreateSource_userSources (st1 st2 : Store) (ty : SourceType)
    (v : String) : ((findOrCreateSource st1 st2 ty v).2).userSources = st2.userSources := by
  unfold findOrCreateSource
  cases findSourceRow st1 ty v with
  | some row => rfl
  | none =>
      unfold insertSourceRow
      cases hif : (findSourceRow st2 ty v).isSome <;> simp [hif]

theorem focs_seq (st : Store) (ty : SourceType) (v : String) :
    ∃ src st1,
      findOrCreateSource st st ty v = (Except.ok src, st1) ∧
      st1.userSources = st.userSources ∧
      st1.txs = st.txs ∧
      findSourceRow st1 ty v = some src := by
  cases h : findSourceRow st ty v with
  | some row =>
      exact ⟨row, st, by simp [findOrCreateSource, h], rfl, rfl, h⟩
  | none =>
      refine ⟨⟨st.nextId, ty, v⟩,
        ⟨st.sources ++ [⟨st.nextId, ty, v⟩], st.userSources, st.txs, st.nextId + 1⟩,
        ?_, rfl, rfl, ?_⟩
      · unfold findOrCreateSource insertSourceRow
        rw [h]
        simp [h]
      · unfold findSourceRow at h ⊢
        rw [find?_append_of_none _ _ _ h]
        simp

theorem postV2_processed_shape (tz : Int) (st : Store) (p : V2Data)
    (src : SourceRow) (st1 : Store)
    (hfocs : findOrCreateSource st st (inferSourceType p.sourceTo) p.sourceTo =
      (Except.ok src, st1))
    (husers : (getUsersForSource st1 src.id).isEmpty = false)
    (hft : findTxRow st1 p.webhookId = none) :
    ∃ row : TxRow,
      row.webhookId = p.webhookId ∧
      postV2 tz st p =
        ({ status := RespStatus.processed, httpStatus := 200,
           transactionId := some row.id, webhookId := p.webhookId,
           sourceId := some src.id, errorMsg := none },
         ⟨st1.sources, st1.userSources, st1.txs ++ [row], st1.nextId + 1⟩) := by
  refine ⟨{ sourceId := src.id, amount := p.amount, currency := jsOrCOP p.currency,
            senderName := jsOrNull p.senderName,
            accountNumber := jsOrNull p.accountNumber,
            transactionDate := txDateUTC p.timestampSec,
            transactionTime := txTimeLocal tz p.timestampSec,
            rawMessage := p.message, webhookId := p.webhookId, event := p.event,
            status := "processed", id := st1.nextId }, rfl, ?_⟩
  unfold postV2
  rw [hfocs]
  simp only [husers, Bool.false_eq_true, if_false]
  unfold createV2Transaction
  rw [hft]
  unfold insertTxRow
  simp [hft]

theorem postV2_duplicate_shape (tz : Int) (st : Store) (p : V2Data)
    (src : SourceRow)
    (hfind : findSourceRow st (inferSourceType p.sourceTo) p.sourceTo = some src)
    (husers : (getUsersForSource st src.id).isEmpty = false)
    (hft : (findTxRow st p.webhookId).isSome = true) :
    postV2 tz st p =
      ({ status := RespStatus.duplicate, httpStatus := 200, transactionId := none,
         webhookId := p.webhookId, sourceId := some src.id, errorMsg := none },
       st) := by
  unfold postV2 findOrCreateSource
  rw [hfind]
  simp only [husers, Bool.false_eq_true, if_false]
  unfold createV2Transaction
  obtain ⟨row, hrow⟩ := Option.isSome_iff_exists.mp hft
  rw [hrow]
  have hdup : strIncludes "Duplicate webhook ID" "Duplicate webhook ID" = true := rfl
  simp [hdup]

/-! ## Claims -/

/-- Claim C9: source-type inference gives the at-sign test strict precedence
over the plus test: a `sourceTo` containing an at-sign anywhere is classified
as email (even when it also starts with a plus); it is phone exactly when it
starts with a plus and contains no at-sign; every other string is webhook. -/
theorem sourceType_inference_at_precedence (s : String) :
    (inferSourceType s = SourceType.email ↔ strHasChar s '@' = true) ∧
    (inferSourceType s = SourceType.phone ↔
      (strHasChar s '@' = false ∧ strHeadIs s '+' = true)) ∧
    (inferSourceType s = SourceType.webhook ↔
      (strHasChar s '@' = false ∧ strHeadIs s '+' = false)) := by
  unfold inferSourceType
  cases h1 : strHasChar s '@' <;> cases h2 : strHeadIs s '+' <;> simp

/-- Claim C8: the structured validator accepts an amount exactly when it is
strictly positive and at most 999999999999 (in the rational embedding of JS
numbers every value is finite); in particular `-100` is rejected,
`999999999999` is accepted and `9999999999999` is rejected. -/
theorem amount_bounds_iff :
    (∀ a : ℚ, amountIssues a = [] ↔ (0 < a ∧ a ≤ 999999999999)) ∧
    amountIssues (-100) ≠ [] ∧
    amountIssues 999999999999 = [] ∧
    amountIssues 9999999999999 ≠ [] := by
  refine ⟨fun a => ?_, by decide, by decide, by decide⟩
  unfold amountIssues
  by_cases h1 : a ≤ 0 <;> by_cases h2 : a > 999999999999 <;> simp [h1, h2]
  push_neg at h1 h2
  exact ⟨h1, h2⟩

/-- Claim C6 counterexample: the stored pair (UTC date from `toISOString`,
local time from `toTimeString`) does not recombine to the input instant under
any single timezone policy when the runtime runs at UTC-5 (offset -18000
seconds): the policies forced at the instants 9000 and 43200 differ. -/
theorem date_time_split_no_consistent_policy :
    ¬ ∃ q : Int, ∀ t : Int,
      recombineAt q (txDateUTC t) (txTimeLocal (-18000) t) = t := by
  rintro ⟨q, h⟩
  have h1 := h 9000
  have h2 := h 43200
  simp only [recombineAt, txDateUTC, txTimeLocal] at h1 h2
  omega

/-- Claim C6 (amended): `transactionDate` is derived from the timestamp's UTC
calendar date while `transactionTime` is derived from the runtime's local time
of day; only when the runtime's UTC offset is zero does the stored pair
recombine to the input instant (then under the UTC policy), for every
timestamp. -/
theorem date_time_split_utc_runtime_consistent (t : Int) :
    recombineAt 0 (txDateUTC t) (txTimeLocal 0 t) = t := by
  simp only [recombineAt, txDateUTC, txTimeLocal]
  omega

/-- The otherwise-valid structured payload of the repository's own unit test
`should handle optional currency field` (v2-validation.test.ts) with the
`currency` key deleted. -/
def currencyAbsentPayload : V2Raw :=
  { source := "bancolombia"
    timestamp := "2025-09-04T08:06:00Z"
    sourceFrom := "bancolombia@noreply.com"
    sourceTo := "jdcadavid96@gmail.com"
    event := "deposit"
    message := "Bancolombia: Recibiste una transferencia por $190,000 de MARIA CUBAQUE en tu cuenta **7251"
    amount := 190000
    currency := none
    webhookId := "webhook_1693814760_12345"
    metadata := some ⟨some "7251", some "MARIA CUBAQUE", none⟩ }

/-- Claim C4: on the repository unit test's payload with `currency` omitted,
validation succeeds, but the validator's output still has `currency` absent —
not defaulted to COP — because `ZodOptional` short-circuits the absent value
before the inner `ZodDefault` fires (`.default('COP').optional()` ordering);
the repository's own unit test expects `'COP'` here. -/
theorem validator_keeps_absent_currency :
    parseV2WebhookPayload currencyAbsentPayload = Except.ok currencyAbsentPayload ∧
    currencyAbsentPayload.currency = none :=
  ⟨rfl, rfl⟩

/-- Claim C7: a free-text message that matches the bank-transfer template
syntactically but carries an impossible calendar date parses to a failure
result with a non-empty `errorReason`, never to a success with a wrapped
date. -/
theorem impossible_date_is_parse_failure (m : String) (caps : SmsCaps)
    (hmatch : templateMatch m = some caps)
    (hdate : validDate caps.day caps.month caps.year = false) :
    (parseBancolombiaSMS m).success = false ∧
    (parseBancolombiaSMS m).errorReason = some "Invalid date in message" ∧
    "Invalid date in message" ≠ "" := by
  unfold parseBancolombiaSMS
  rw [hmatch]
  simp [hdate, smsFailure]

/-- The spec's impossible-date message: the round-trip template message with
the date replaced by `32/13/2025`. -/
def impossibleDateMsg : String :=
  "Bancolombia: Recibiste una transferencia por $190,000 de MARIA CUBAQUE en tu cuenta **7251, el 32/13/2025 a las 08:06"

/-- Witness for C7 at `impossibleDateMsg` (day 32, month 13). -/
theorem impossible_date_is_parse_failure_witness :
    (parseBancolombiaSMS impossibleDateMsg).success = false ∧
    (parseBancolombiaSMS impossibleDateMsg).errorReason =
      some "Invalid date in message" ∧
    "Invalid date in message" ≠ "" :=
  impossible_date_is_parse_failure impossibleDateMsg
    ⟨190000, "MARIA CUBAQUE", "7251", 32, 13, 2025, 8, 6, "08:06"⟩
    (by decide) (by decide)

/-- The store as observed by the lookup-await of `findOrCreateSource` in a
lost first-sighting race: the pair is not there yet. -/
def raceStFind : Store := ⟨[], [], [], 0⟩

/-- The store as observed by the insert-await of the same call: a concurrent
first-sighting has created the pair in between. -/
def raceStIns : Store := ⟨[⟨0, SourceType.email, "race@mail.co"⟩], [], [], 1⟩

/-- Claim C3 counterexample: when the insert of `findOrCreateSource` hits the
uniqueness-constraint conflict left by a concurrent first-sighting of
(email, race@mail.co), the call returns an error — it does not retry the
lookup and return the existing Source as a successful find. -/
theorem findOrCreateSource_conflict_is_error :
    (findOrCreateSource raceStFind raceStIns SourceType.email "race@mail.co").1 =
      Except.error "Failed to create source: duplicate key value violates unique constraint sources_source_type_source_value_key" :=
  rfl

/-- Claim C3 (amended): whenever the pre-insert lookup misses and the insert
then hits the uniqueness constraint (a concurrent first-sighting won the
race), `findOrCreateSource` returns the conflict as the error
`Failed to create source: ...` and leaves the store unchanged; the existing
Source is returned only when the pre-insert lookup itself finds it. -/
theorem findOrCreateSource_conflict_shape (stFind stIns : Store)
    (ty : SourceType) (v : String)
    (hmiss : findSourceRow stFind ty v = none)
    (hconflict : (findSourceRow stIns ty v).isSome = true) :
    findOrCreateSource stFind stIns ty v =
      (Except.error "Failed to create source: duplicate key value violates unique constraint sources_source_type_source_value_key",
       stIns) := by
  unfold findOrCreateSource insertSourceRow
  rw [hmiss]
  simp [hconflict, pgUniqueViolation]

/-- Witness for the amended C3 at the concrete race stores. -/
theorem findOrCreateSource_conflict_shape_witness :
    findOrCreateSource raceStFind raceStIns SourceType.email "race@mail.co" =
      (Except.error "Failed to create source: duplicate key value violates unique constraint sources_source_type_source_value_key",
       raceStIns) :=
  findOrCreateSource_conflict_shape raceStFind raceStIns SourceType.email
    "race@mail.co" rfl rfl

/-- The store observed by the duplicate pre-check of `createV2Transaction` in
a lost race: no transaction with the webhook id yet. -/
def raceTxStCheck : Store :=
  ⟨[⟨0, SourceType.email, "dup@mail.co"⟩], [⟨"u1", 0, true⟩], [], 1⟩

/-- The transaction row a concurrent writer inserts between the pre-check and
the insert. -/
def raceTxRow : TxRow :=
  { sourceId := 0, amount := 100, currency := "COP", senderName := none,
    accountNumber := none, transactionDate := 0, transactionTime := 0,
    rawMessage := "m", webhookId := "wh-1", event := "deposit",
    status := "processed", id := 1 }

/-- The store observed by the insert-await of the same call. -/
def raceTxStIns : Store :=
  ⟨[⟨0, SourceType.email, "dup@mail.co"⟩], [⟨"u1", 0, true⟩], [raceTxRow], 2⟩

/-- The payload of the race example. -/
def raceTxPayload : V2Data :=
  { timestampSec := 0, sourceTo := "dup@mail.co", event := "deposit",
    message := "m", amount := 100, currency := none, webhookId := "wh-1",
    senderName := none, accountNumber := none }

/-- Claim C2 counterexample: when the pre-check of `createV2Transaction`
passes and a concurrent writer then wins the race, the storage-layer
uniqueness-constraint violation on the insert is returned as the generic
persistence error `Failed to insert transaction: ...` — a message the route's
duplicate test (`includes('Duplicate webhook ID')`) does not match — rather
than being mapped to the duplicate success outcome. -/
theorem createV2Transaction_conflict_is_generic_error :
    (createV2Transaction raceTxStCheck raceTxStIns 0 0 raceTxPayload).1 =
      Except.error "Failed to insert transaction: duplicate key value violates unique constraint v2_transactions_webhook_id_key" ∧
    strIncludes "Failed to insert transaction: duplicate key value violates unique constraint v2_transactions_webhook_id_key"
      "Duplicate webhook ID" = false :=
  ⟨rfl, rfl⟩

/-- Claim C2 (amended): whenever the duplicate pre-check of
`createV2Transaction` misses and the insert then hits the webhook-id
uniqueness constraint (a concurrent writer won the race), the conflict is
returned as the generic error `Failed to insert transaction: ...`, which the
route maps to the 500 `Failed to store transaction` branch rather than the
duplicate outcome (its message does not contain `Duplicate webhook ID`); the
`duplicate` outcome arises only from the pre-check. -/
theorem createV2Transaction_conflict_shape (stCheck stIns : Store) (tz : Int)
    (sid : Nat) (p : V2Data)
    (hmiss : findTxRow stCheck p.webhookId = none)
    (hconflict : (findTxRow stIns p.webhookId).isSome = true) :
    (createV2Transaction stCheck stIns tz sid p).1 =
      Except.error "Failed to insert transaction: duplicate key value violates unique constraint v2_transactions_webhook_id_key" ∧
    (createV2Transaction stCheck stIns tz sid p).2 = stIns ∧
    strIncludes "Failed to insert transaction: duplicate key value violates unique constraint v2_transactions_webhook_id_key"
      "Duplicate webhook ID" = false := by
  unfold createV2Transaction insertTxRow
  rw [hmiss]
  refine ⟨?_, ?_, rfl⟩ <;> simp [hconflict, pgUniqueViolation]

/-- Witness for the amended C2 at the concrete race stores. -/
theorem createV2Transaction_conflict_shape_witness :
    (createV2Transaction raceTxStCheck raceTxStIns 0 0 raceTxPayload).1 =
      Except.error "Failed to insert transaction: duplicate key value violates unique constraint v2_transactions_webhook_id_key" ∧
    (createV2Transaction raceTxStCheck raceTxStIns 0 0 raceTxPayload).2 = raceTxStIns ∧
    strIncludes "Failed to insert transaction: duplicate key value violates unique constraint v2_transactions_webhook_id_key"
      "Duplicate webhook ID" = false :=
  createV2Transaction_conflict_shape raceTxStCheck raceTxStIns 0 0 raceTxPayload
    rfl rfl

/-- Claim C5: for every valid structured webhook whose resolved source has
zero active UserSource rows, the handler reports the distinct 4xx
`No users configured for this source` outcome (HTTP 404, which differs from
the 400 used for validation failures and from the 500 used for storage
failures), the response status is not `processed`, and no transaction is
created. -/
theorem zero_subscribers_distinct_outcome (tz : Int) (st st1 : Store)
    (p : V2Data) (src : SourceRow)
    (hsrc : findOrCreateSource st st (inferSourceType p.sourceTo) p.sourceTo =
      (Except.ok src, st1))
    (husers : getUsersForSource st1 src.id = []) :
    (postV2 tz st p).1 =
      { status := RespStatus.error, httpStatus := 404, transactionId := none,
        webhookId := p.webhookId, sourceId := some src.id,
        errorMsg := some "No users configured for this source" } ∧
    ((postV2 tz st p).2).txs = st.txs ∧
    (postV2 tz st p).1.status ≠ RespStatus.processed ∧
    (postV2 tz st p).1.httpStatus ≠ 400 ∧
    (postV2 tz st p).1.httpStatus ≠ 500 := by
  have htxs : st1.txs = st.txs := by
    have h := findOrCreateSource_txs st st (inferSourceType p.sourceTo) p.sourceTo
    rw [hsrc] at h
    exact h
  unfold postV2
  rw [hsrc]
  simp [husers, htxs]

/-- A source nobody subscribes to, for the C5 witness. -/
def lonelyStore : Store := ⟨[⟨0, SourceType.webhook, "lonely-endpoint"⟩], [], [], 1⟩

/-- The payload addressed to the lonely source. -/
def lonelyPayload : V2Data :=
  { timestampSec := 0, sourceTo := "lonely-endpoint", event := "deposit",
    message := "m", amount := 10, currency := none, webhookId := "wh-lonely",
    senderName := none, accountNumber := none }

/-- Witness for C5 at the lonely store. -/
theorem zero_subscribers_distinct_outcome_witness :
    (postV2 0 lonelyStore lonelyPayload).1 =
      { status := RespStatus.error, httpStatus := 404, transactionId := none,
        webhookId := "wh-lonely", sourceId := some 0,
        errorMsg := some "No users configured for this source" } ∧
    ((postV2 0 lonelyStore lonelyPayload).2).txs = lonelyStore.txs ∧
    (postV2 0 lonelyStore lonelyPayload).1.status ≠ RespStatus.processed ∧
    (postV2 0 lonelyStore lonelyPayload).1.httpStatus ≠ 400 ∧
    (postV2 0 lonelyStore lonelyPayload).1.httpStatus ≠ 500 :=
  zero_subscribers_distinct_outcome 0 lonelyStore lonelyStore lonelyPayload
    ⟨0, SourceType.webhook, "lonely-endpoint"⟩ rfl rfl

/-- Claim C10: when a structured webhook names a never-seen `sourceTo` that
no user subscribes to, the request ends in the `No users configured for this
source` error response, yet the Source row created by find-or-create during
that same request persists in the store (it is not rolled back) and its id is
returned as `sourceId` in the error response. -/
theorem zero_subscribers_source_persists (tz : Int) (st : Store) (p : V2Data)
    (hfresh : findSourceRow st (inferSourceType p.sourceTo) p.sourceTo = none)
    (husers : getUsersForSource st st.nextId = []) :
    (postV2 tz st p).1 =
      { status := RespStatus.error, httpStatus := 404, transactionId := none,
        webhookId := p.webhookId, sourceId := some st.nextId,
        errorMsg := some "No users configured for this source" } ∧
    ((postV2 tz st p).2).sources =
      st.sources ++ [⟨st.nextId, inferSourceType p.sourceTo, p.sourceTo⟩] ∧
    (⟨st.nextId, inferSourceType p.sourceTo, p.sourceTo⟩ : SourceRow) ∈
      ((postV2 tz st p).2).sources := by
  unfold postV2 findOrCreateSource insertSourceRow
  rw [hfresh]
  simp only [hfresh, Option.isSome_none, Bool.false_eq_true, if_false]
  have husers2 : getUsersForSource
      ⟨st.sources ++ [⟨st.nextId, inferSourceType p.sourceTo, p.sourceTo⟩],
       st.userSources, st.txs, st.nextId + 1⟩ st.nextId = [] := husers
  simp [husers2]

/-- A fresh store with no sources and no subscriptions, for the C10 witness. -/
def freshStore : Store := ⟨[], [], [], 0⟩

/-- The payload naming the never-seen source. -/
def freshPayload : V2Data :=
  { timestampSec := 0, sourceTo := "new-endpoint", event := "deposit",
    message := "m", amount := 10, currency := none, webhookId := "wh-fresh",
    senderName := none, accountNumber := none }

/-- Witness for C10 at the fresh store. -/
theorem zero_subscribers_source_persists_witness :
    (postV2 0 freshStore freshPayload).1 =
      { status := RespStatus.error, httpStatus := 404, transactionId := none,
        webhookId := "wh-fresh", sourceId := some 0,
        errorMsg := some "No users configured for this source" } ∧
    ((postV2 0 freshStore freshPayload).2).sources =
      freshStore.sources ++
        [⟨0, inferSourceType "new-endpoint", "new-endpoint"⟩] ∧
    (⟨0, inferSourceType "new-endpoint", "new-endpoint"⟩ : SourceRow) ∈
      ((postV2 0 freshStore freshPayload).2).sources :=
  zero_subscribers_source_persists 0 freshStore freshPayload rfl rfl

/-- A store with one webhook source and one active subscriber, for the
idempotency scenario. -/
def idemStore : Store :=
  ⟨[⟨0, SourceType.webhook, "mystore"⟩], [⟨"u1", 0, true⟩], [], 1⟩

/-- The spec's end-to-end payload: amount 75000, webhookId dup-1. -/
def idemPayload : V2Data :=
  { timestampSec := 1757000000, sourceTo := "mystore", event := "deposit",
    message := "hello", amount := 75000, currency := none,
    webhookId := "dup-1", senderName := none, accountNumber := none }

/-- Claim C1 counterexample: submitting the same valid payload twice, the
first call is processed with transactionId 1, and the second call does return
HTTP 200 with status duplicate — but its response carries no transactionId at
all, so it does not return the same transactionId the first call returned. -/
theorem second_call_omits_transactionId :
    (postV2 0 idemStore idemPayload).1.status = RespStatus.processed ∧
    (postV2 0 idemStore idemPayload).1.transactionId = some 1 ∧
    (postV2 0 (postV2 0 idemStore idemPayload).2 idemPayload).1.status =
      RespStatus.duplicate ∧
    (postV2 0 (postV2 0 idemStore idemPayload).2 idemPayload).1.httpStatus = 200 ∧
    (postV2 0 (postV2 0 idemStore idemPayload).2 idemPayload).1.transactionId =
      none ∧
    (postV2 0 (postV2 0 idemStore idemPayload).2 idemPayload).1.transactionId ≠
      (postV2 0 idemStore idemPayload).1.transactionId := by
  refine ⟨rfl, rfl, rfl, rfl, rfl, ?_⟩
  decide

/-- Claim C1 (amended): for every store and valid payload whose webhookId is
not yet present, if the first call is processed then the second identical call
returns HTTP 200 with status `duplicate` and the same `sourceId`, but omits
`transactionId`; it leaves the store untouched (the first row is not
overwritten), and exactly one transaction row with that webhookId is
persisted across both calls. -/
theorem second_call_duplicate_shape (tz : Int) (st : Store) (p : V2Data)
    (h0 : findTxRow st p.webhookId = none)
    (h1 : (postV2 tz st p).1.status = RespStatus.processed) :
    (postV2 tz (postV2 tz st p).2 p).1.status = RespStatus.duplicate ∧
    (postV2 tz (postV2 tz st p).2 p).1.httpStatus = 200 ∧
    (postV2 tz (postV2 tz st p).2 p).1.transactionId = none ∧
    (postV2 tz (postV2 tz st p).2 p).1.sourceId = (postV2 tz st p).1.sourceId ∧
    (postV2 tz (postV2 tz st p).2 p).2 = (postV2 tz st p).2 ∧
    (((postV2 tz (postV2 tz st p).2 p).2).txs.filter
        (fun r => r.webhookId == p.webhookId)).length = 1 := by
  obtain ⟨src, st1, hfocs, hus, htx, hfind1⟩ :=
    focs_seq st (inferSourceType p.sourceTo) p.sourceTo
  have hft1 : findTxRow st1 p.webhookId = none := by
    unfold findTxRow at h0 ⊢
    rw [htx]
    exact h0
  cases hune : (getUsersForSource st1 src.id).isEmpty with
  | true =>
      exfalso
      have herr : (postV2 tz st p).1.status = RespStatus.error := by
        unfold postV2
        rw [hfocs]
        simp [hune]
      rw [herr] at h1
      exact RespStatus.noConfusion h1
  | false =>
      obtain ⟨row, hrow, heq1⟩ := postV2_processed_shape tz st p src st1 hfocs hune hft1
      have hfind2 : findSourceRow
          ⟨st1.sources, st1.userSources, st1.txs ++ [row], st1.nextId + 1⟩
          (inferSourceType p.sourceTo) p.sourceTo = some src := hfind1
      have hune2 : (getUsersForSource
          ⟨st1.sources, st1.userSources, st1.txs ++ [row], st1.nextId + 1⟩
          src.id).isEmpty = false := hune
      have hft2 : (findTxRow
          ⟨st1.sources, st1.userSources, st1.txs ++ [row], st1.nextId + 1⟩
          p.webhookId).isSome = true := by
        show (((st1.txs ++ [row]).find? (fun r => r.webhookId == p.webhookId)).isSome) = true
        rw [find?_append_of_none _ _ _ hft1]
        simp [List.find?, hrow]
      have heq2 := postV2_duplicate_shape tz
        ⟨st1.sources, st1.userSources, st1.txs ++ [row], st1.nextId + 1⟩
        p src hfind2 hune2 hft2
      rw [heq1]
      simp only [heq2]
      have f1 : st1.txs.filter (fun r => r.webhookId == p.webhookId) = [] :=
        filter_eq_nil_of_find?_none _ _ hft1
      simp [List.filter_append, f1, List.filter, hrow]

/-- Witness for the amended C1 at the concrete idempotency scenario. -/
theorem second_call_duplicate_shape_witness :
    (postV2 0 (postV2 0 idemStore idemPayload).2 idemPayload).1.status =
      RespStatus.duplicate ∧
    (postV2 0 (postV2 0 idemStore idemPayload).2 idemPayload).1.httpStatus = 200 ∧
    (postV2 0 (postV2 0 idemStore idemPayload).2 idemPayload).1.transactionId =
      none ∧
    (postV2 0 (postV2 0 idemStore idemPayload).2 idemPayload).1.sourceId =
      (postV2 0 idemStore idemPayload).1.sourceId ∧
    (postV2 0 (postV2 0 idemStore idemPayload).2 idemPayload).2 =
      (postV2 0 idemStore idemPayload).2 ∧
    (((postV2 0 (postV2 0 idemStore idemPayload).2 idemPayload).2).txs.filter
        (fun r => r.webhookId == idemPayload.webhookId)).length = 1 :=
  second_call_duplicate_shape 0 idemStore idemPayload rfl rfl

end BalancesApp
